import Mathlib

/-!
Verification development for the weather-station recorder
(src/weatherStation.py): a sampling loop that appends sensor readings to
an in-memory record set, persists them to a spreadsheet and regenerates
an embedded chart on every write.

Conventions of the shallow embedding:
* Numeric sensor values are modelled as `Rat`; a possibly-missing value
  (pandas `NaN`, detected by `isnull`) is `Option Rat`.
* A pandas data frame built from the record dictionary is a `List Row`
  (one `Row` per data row, the four fixed columns as fields).
* The spreadsheet file is `Option Sheet`: `none` while the file does not
  exist, `some s` once it does.  A `Sheet` keeps the ordered data rows
  below the header and the ordered list of embedded images (images are
  identified by `Nat` tags; distinct tags model the distinct Python
  image objects, whose equality is object identity).
* Fallible code returns `Except String`; the string is the message of
  the Python exception that would be raised.
-/

/-- One reading of the sensor: the four columns Time, Temperature (°C),
Humidity (%), Pressure (hPa) of the record dictionary.  Metric values are
`Option Rat` so that a missing (`NaN`) cell is representable, matching
the `isnull` checks in `create_scatter_plots`. -/
structure Row where
  time : Rat
  temperature : Option Rat
  humidity : Option Rat
  pressure : Option Rat
deriving Repr, DecidableEq

/-- The persisted sheet `SensorData`: data rows in order below the header
row, plus the ordered list of embedded image tags. -/
structure Sheet where
  rows : List Row
  images : List Nat
deriving Repr, DecidableEq

/-- `pandas.Series.mean()` of a metric column: arithmetic mean of the
non-missing values (pandas skips nulls). -/
def seriesMean (ys : List (Option Rat)) : Rat :=
  let vals := ys.filterMap id
  vals.sum / vals.length

/-- Degree-one `np.polyfit`: the ordinary least-squares linear fit,
returned as (slope, intercept) — `polyfit` returns the highest-degree
coefficient first. -/
def polyfit1 (xs ys : List Rat) : Rat × Rat :=
  let n : Rat := xs.length
  let sx := xs.sum
  let sy := ys.sum
  let sxx := (xs.map (fun x => x * x)).sum
  let sxy := (List.zipWith (fun x y => x * y) xs ys).sum
  let slope := (n * sxy - sx * sy) / (n * sxx - sx * sx)
  let intercept := (sy - slope * sx) / n
  (slope, intercept)

/-- `np.arange(len(df))` used as the x-vector of the fit: the sample
indices 0, 1, 2, … as rationals. -/
def indexXs (n : Nat) : List Rat :=
  (List.range n).map (fun i => (i : Rat))

/-- The guard of each trend-line block in `create_scatter_plots`:
`len(df['Time']) > 1 and not y.isnull().any()`. -/
def trendCondition (times : List Rat) (ys : List (Option Rat)) : Bool :=
  decide (1 < times.length) && ys.all (fun y => y.isSome)

/-- What one of the three stacked axes shows: the scatter points, the
horizontal mean line, and — when the guard holds — the coefficients of
the least-squares trend line. -/
structure ChartPanel where
  points : List (Rat × Option Rat)
  meanLine : Rat
  trend : Option (Rat × Rat)
deriving Repr, DecidableEq

/-- The three stacked panels produced by `create_scatter_plots`. -/
structure Charts where
  temperature : ChartPanel
  humidity : ChartPanel
  pressure : ChartPanel
deriving Repr, DecidableEq

/-- One axis of `create_scatter_plots`: scatter of the raw series over
time, `axhline` at the series mean, and a trend line from
`np.polyfit(np.arange(len(df)), y, 1)` exactly when the guard holds. -/
def mkPanel (times : List Rat) (ys : List (Option Rat)) : ChartPanel :=
  { points := times.zip ys
    meanLine := seriesMean ys
    trend :=
      if trendCondition times ys then
        some (polyfit1 (indexXs times.length) (ys.filterMap id))
      else none }

/-- `create_scatter_plots(df)`: the three panels, all sharing
`x_temp = np.arange(len(df['Time']))` as fit abscissa. -/
def create_scatter_plots (df : List Row) : Charts :=
  let times := df.map Row.time
  { temperature := mkPanel times (df.map Row.temperature)
    humidity := mkPanel times (df.map Row.humidity)
    pressure := mkPanel times (df.map Row.pressure) }

/-- The Python loop `for image in sheet._images: sheet._images.remove(image)`:
removing the element at the iteration cursor while advancing the cursor
skips every other element, so the elements at odd positions survive.
(The images are pairwise distinct objects, so `remove` deletes exactly
the element the cursor is on.) -/
def removeAlternating {α : Type} : List α → List α
  | [] => []
  | [_] => []
  | _ :: b :: rest => b :: removeAlternating rest

/-- Message of the pandas `IndexError` raised by `df.iloc[-1, col]` on an
empty frame. -/
def iloc_err : String := "single positional indexer is out-of-bounds"

/-- `openpyxl` `sheet.max_row`: the header row plus the data rows. -/
def maxRow (s : Sheet) : Nat := 1 + s.rows.length

/-- `start_row = sheet.max_row + 1`: the row the writer appends at. -/
def nextFreeRow (s : Sheet) : Nat := maxRow s + 1

/-- The 1-based spreadsheet row holding the data row of 0-based index
`k`: row 1 is the header, data starts at row 2. -/
def sheetRowOfDataIndex (k : Nat) : Nat := k + 2

/-- `append_to_excel(df)` acting on the file state:
* file absent — create it, write the whole frame as a fresh table
  (`df.to_excel`) and return: no image is embedded on this branch;
* file present — write the four cells of `df.iloc[-1]` at
  `start_row = max_row + 1` (an `IndexError` propagates if the frame is
  empty), run the remove-while-iterating image loop, then embed the
  newly rendered chart image. -/
def append_to_excel (file : Option Sheet) (df : List Row) (imgId : Nat) :
    Except String Sheet :=
  match file with
  | none => Except.ok { rows := df, images := [] }
  | some sheet =>
      match df.getLast? with
      | none => Except.error iloc_err
      | some last =>
          Except.ok
            { rows := sheet.rows ++ [last]
              images := removeAlternating sheet.images ++ [imgId] }

/-- The mutable program state of the loop: the accumulated record
dictionary and the file on disk. -/
structure ProgState where
  records : List Row
  file : Option Sheet
deriving Repr, DecidableEq

/-- Process start: empty record dictionary; the file-absent scenarios
start from `file := none`. -/
def initState : ProgState := { records := [], file := none }

/-- The externally visible events driving one program run: a successful
sensor sample (with the tag of the image the writer would freshly
render), an exception raised in the loop body outside the writer (e.g. a
failed `bme280.sample`), or `KeyboardInterrupt`. -/
inductive Event where
  | sample (r : Row) (imgId : Nat)
  | bodyError (msg : String)
  | interrupt (imgId : Nat)
deriving Repr, DecidableEq

/-- How a run ends. `running` means the event list was exhausted with
the loop still alive. -/
inductive Outcome where
  | running
  | cleanExit
  | printedError (msg : String)
  | uncaughtError (msg : String)
deriving Repr, DecidableEq

/-- The `try`/`except` structure of the main script:
* a sample appends the reading to the record dictionary and calls the
  writer; a writer exception propagates out of `append_to_excel` uncaught
  and is caught by the outermost `except Exception`, which prints the
  message and ends the program (remaining events never happen);
* any other loop-body exception is caught by the same outermost handler;
* `KeyboardInterrupt` runs the handler: one final `append_to_excel`,
  then a clean exit — but an exception inside that handler is caught by
  nothing and escapes the process. -/
def run : ProgState → List Event → Outcome × ProgState
  | s, [] => (Outcome.running, s)
  | s, Event.bodyError msg :: _ => (Outcome.printedError msg, s)
  | s, Event.interrupt imgId :: _ =>
      match append_to_excel s.file s.records imgId with
      | Except.ok f => (Outcome.cleanExit, { s with file := some f })
      | Except.error m => (Outcome.uncaughtError m, s)
  | s, Event.sample r imgId :: es =>
      let records := s.records ++ [r]
      match append_to_excel s.file records imgId with
      | Except.ok f => run { records := records, file := some f } es
      | Except.error m =>
          (Outcome.printedError m, { records := records, file := s.file })

/-- Number of data rows on disk (0 while the file does not exist). -/
def rowCount : Option Sheet → Nat
  | none => 0
  | some s => s.rows.length

/-- Number of embedded images on disk (0 while the file does not exist). -/
def imageCount : Option Sheet → Nat
  | none => 0
  | some s => s.images.length

/-- The sample events of a run, one per `(reading, fresh image tag)`. -/
def sampleEvents (ps : List (Row × Nat)) : List Event :=
  ps.map (fun p => Event.sample p.1 p.2)

/-- The first reading of the spec scenario: 22.0 °C, 55 %, 1013 hPa. -/
def r22 : Row :=
  { time := 0, temperature := some 22, humidity := some 55, pressure := some 1013 }

/-- A second reading, 23.0 °C, 56 %, 1012 hPa (spec scenario). -/
def r23 : Row :=
  { time := 1, temperature := some 23, humidity := some 56, pressure := some 1012 }

/-- The remove-while-iterating loop keeps exactly the elements at odd
positions: half of the list (rounded down) survives. -/
theorem removeAlternating_length {α : Type} :
    ∀ l : List α, (removeAlternating l).length = l.length / 2
  | [] => by simp [removeAlternating]
  | [_] => by simp [removeAlternating]
  | _ :: _ :: rest => by
      simp only [removeAlternating, List.length_cons,
        removeAlternating_length rest]
      omega

/-- The loop empties the image list exactly when it held at most one
image to begin with. -/
theorem removeAlternating_eq_nil_iff {α : Type} :
    ∀ l : List α, (removeAlternating l = [] ↔ l.length ≤ 1)
  | [] => by simp [removeAlternating]
  | [_] => by simp [removeAlternating]
  | _ :: _ :: rest => by
      simp only [removeAlternating, List.length_cons]
      constructor
      · intro h
        exact absurd h (List.cons_ne_nil _ _)
      · intro h
        omega

/-- Link between the disk state and the record dictionary: while the
file is absent no reading has been taken; once present, its data rows
are exactly the accumulated records. -/
def rowsMatch (s : ProgState) : Prop :=
  match s.file with
  | none => s.records = []
  | some sh => sh.rows = s.records

/-- A run consisting only of successful samples never terminates the
loop, appends each reading to the records in order, and keeps the data
rows of the file identical to the records. -/
theorem run_samples_spec :
    ∀ (ps : List (Row × Nat)) (s : ProgState), rowsMatch s →
      (run s (sampleEvents ps)).1 = Outcome.running ∧
      (run s (sampleEvents ps)).2.records = s.records ++ ps.map Prod.fst ∧
      rowsMatch (run s (sampleEvents ps)).2
  | [], s, hm => by simpa [sampleEvents, run] using hm
  | (r, iId) :: rest, s, hm => by
      simp only [sampleEvents, List.map_cons, run]
      cases hf : s.file with
      | none =>
          have hrec : s.records = [] := by simpa [rowsMatch, hf] using hm
          have hmatch :
              rowsMatch { records := s.records ++ [r],
                          file := some { rows := s.records ++ [r], images := [] } } := by
            simp [rowsMatch]
          have ih := run_samples_spec rest _ hmatch
          simpa [append_to_excel, hf, sampleEvents] using ih
      | some sh =>
          have hrows : sh.rows = s.records := by simpa [rowsMatch, hf] using hm
          have hlast : (s.records ++ [r]).getLast? = some r :=
            List.getLast?_concat _
          have hmatch :
              rowsMatch { records := s.records ++ [r],
                          file := some { rows := sh.rows ++ [r],
                                         images := removeAlternating sh.images ++ [iId] } } := by
            simp [rowsMatch, hrows]
          have ih := run_samples_spec rest _ hmatch
          simpa [append_to_excel, hf, hlast, sampleEvents] using ih

/-- A run that has not terminated continues from its final state. -/
theorem run_append_of_running :
    ∀ (es₁ : List Event) (s : ProgState), (run s es₁).1 = Outcome.running →
      ∀ es₂ : List Event, run s (es₁ ++ es₂) = run (run s es₁).2 es₂
  | [], s, _, es₂ => by simp [run]
  | Event.bodyError msg :: rest, s, h, es₂ => by
      simp [run] at h
  | Event.interrupt iId :: rest, s, h, es₂ => by
      cases hap : append_to_excel s.file s.records iId <;> simp [run, hap] at h
  | Event.sample r iId :: rest, s, h, es₂ => by
      cases hap : append_to_excel s.file (s.records ++ [r]) iId with
      | ok f =>
          have h' : (run { records := s.records ++ [r], file := some f } rest).1 =
              Outcome.running := by simpa [run, hap] using h
          have ih := run_append_of_running rest _ h' es₂
          simp only [List.cons_append, run, hap]
          simpa [run, hap] using ih
      | error m => simp [run, hap] at h

/-- Any single writer call keeps the on-disk image count at one or
below, provided it was at one or below before. -/
theorem append_to_excel_imageCount (f : Option Sheet) (df : List Row)
    (iId : Nat) (sh' : Sheet) (hinv : imageCount f ≤ 1)
    (h : append_to_excel f df iId = Except.ok sh') : sh'.images.length ≤ 1 := by
  cases f with
  | none =>
      simp only [append_to_excel] at h
      cases h
      simp
  | some sheet =>
      cases hlast : df.getLast? with
      | none => simp [append_to_excel, hlast] at h
      | some last =>
          simp only [append_to_excel, hlast] at h
          cases h
          have hlen := removeAlternating_length sheet.images
          have : sheet.images.length ≤ 1 := by simpa [imageCount] using hinv
          simp only [List.length_append, List.length_cons, List.length_nil, hlen]
          omega

/-- Image-count invariant along any run: every rest point of the
program keeps at most one embedded image if the starting state did. -/
theorem run_imageCount :
    ∀ (es : List Event) (s : ProgState), imageCount s.file ≤ 1 →
      imageCount (run s es).2.file ≤ 1
  | [], s, h => by simpa [run] using h
  | Event.bodyError msg :: rest, s, h => by simpa [run] using h
  | Event.interrupt iId :: rest, s, h => by
      cases hap : append_to_excel s.file s.records iId with
      | ok f =>
          have := append_to_excel_imageCount s.file s.records iId f h hap
          simpa [run, hap, imageCount] using this
      | error m => simpa [run, hap] using h
  | Event.sample r iId :: rest, s, h => by
      cases hap : append_to_excel s.file (s.records ++ [r]) iId with
      | ok f =>
          have hinv' : imageCount (some f) ≤ 1 := by
            simpa [imageCount] using
              append_to_excel_imageCount s.file (s.records ++ [r]) iId f h hap
          have ih := run_imageCount rest { records := s.records ++ [r], file := some f } hinv'
          simpa [run, hap] using ih
      | error m => simpa [run, hap] using h

/-- A non-empty list has a last element. -/
theorem getLast?_some_of_ne_nil {α : Type} (l : List α) (h : l ≠ []) :
    ∃ a, l.getLast? = some a :=
  Option.isSome_iff_exists.mp (List.getLast?_isSome.mpr h)

/-- The trend field of a panel is populated exactly when the guard of
the corresponding Python `if` evaluates to true. -/
theorem mkPanel_trend_isSome (times : List Rat) (ys : List (Option Rat)) :
    (mkPanel times ys).trend.isSome = trendCondition times ys := by
  cases h : trendCondition times ys <;> simp [mkPanel, h]

/-- The guard unfolded: more than one data row and no missing value in
the plotted series. -/
theorem trendCondition_eq_true_iff (times : List Rat) (ys : List (Option Rat)) :
    trendCondition times ys = true ↔
      1 < times.length ∧ ∀ y ∈ ys, y ≠ none := by
  simp [trendCondition, List.all_eq_true, Option.isSome_iff_ne_none]

/-- The record dictionary with temperatures [20, 22, 24] used by the
mean-line computation check. -/
def dfMean : List Row :=
  [ { time := 1, temperature := some 20, humidity := some 50, pressure := some 1000 }
  , { time := 2, temperature := some 22, humidity := some 51, pressure := some 1001 }
  , { time := 3, temperature := some 24, humidity := some 52, pressure := some 1002 } ]

/-- The record dictionary with index-linear temperatures [10, 12, 14, 16]
at indices [0, 1, 2, 3]; the timestamps are deliberately non-uniform so
that a fit against time would give different coefficients. -/
def dfTrend : List Row :=
  [ { time := 5, temperature := some 10, humidity := some 40, pressure := some 1000 }
  , { time := 7, temperature := some 12, humidity := some 41, pressure := some 1001 }
  , { time := 100, temperature := some 14, humidity := some 42, pressure := some 1002 }
  , { time := 1000, temperature := some 16, humidity := some 43, pressure := some 1003 } ]

/-- C1, counterexample: starting with no report file, the first sample
leads the writer through the create branch, which writes the table and
returns before any chart is rendered — the resulting file holds one data
row but zero embedded chart images, not one image as claimed. -/
theorem C1_first_write_counterexample :
    rowCount ((run initState [Event.sample r22 1]).2.file) = 1 ∧
    imageCount ((run initState [Event.sample r22 1]).2.file) = 0 ∧
    imageCount ((run initState [Event.sample r22 1]).2.file) ≠ 1 :=
  ⟨rfl, rfl, by decide⟩

/-- C1, amended: starting with no report file, after the first sample is
taken and the report writer runs, the report file has been created
containing exactly one data row and no embedded chart image (the create
branch returns before the chart step; a chart first appears on the
second write). -/
theorem C1_first_write_amended (r : Row) (iId : Nat) :
    run initState [Event.sample r iId] =
      (Outcome.running,
       { records := [r], file := some { rows := [r], images := [] } }) ∧
    rowCount (some { rows := [r], images := ([] : List Nat) }) = 1 ∧
    imageCount (some { rows := [r], images := ([] : List Nat) }) = 0 :=
  ⟨rfl, rfl, rfl⟩

/-- C2, counterexample: after one sample and the final shutdown write,
the record dictionary holds one reading but the file holds two data
rows — the shutdown handler calls the writer again with no new reading,
so the most recent reading is appended a second time. -/
theorem C2_rows_counterexample :
    (run initState [Event.sample r22 1, Event.interrupt 2]).2.records.length = 1 ∧
    rowCount ((run initState [Event.sample r22 1, Event.interrupt 2]).2.file) = 2 :=
  ⟨rfl, rfl⟩

/-- C2, amended: at rest after every per-sample report-writer call the
number of data rows in the file equals the number of readings appended
so far; the final shutdown write however re-appends the most recent
reading, so after shutdown with at least one reading the file holds one
row more than the record dictionary (with no readings and no file, the
shutdown write creates an empty table with zero rows). -/
theorem C2_rows_match_amended (ps : List (Row × Nat)) (iId : Nat)
    (h : ps ≠ []) :
    rowCount ((run initState (sampleEvents ps)).2.file) = ps.length ∧
    rowCount ((run initState (sampleEvents ps ++ [Event.interrupt iId])).2.file) =
      ps.length + 1 ∧
    rowCount ((run initState [Event.interrupt iId]).2.file) = 0 := by
  have hm : rowsMatch initState := by simp [rowsMatch, initState]
  obtain ⟨hout, hrec, hmatch⟩ := run_samples_spec ps initState hm
  have hrec' : (run initState (sampleEvents ps)).2.records = ps.map Prod.fst := by
    simpa [initState] using hrec
  have hne : (run initState (sampleEvents ps)).2.records ≠ [] := by
    rw [hrec']
    simpa [List.map_eq_nil_iff] using h
  cases hfile : (run initState (sampleEvents ps)).2.file with
  | none =>
      rw [rowsMatch, hfile] at hmatch
      exact absurd hmatch hne
  | some sh =>
      have hrows : sh.rows = (run initState (sampleEvents ps)).2.records := by
        simpa [rowsMatch, hfile] using hmatch
      obtain ⟨a, ha⟩ := getLast?_some_of_ne_nil _ hne
      refine ⟨?_, ?_, rfl⟩
      · simp [rowCount, hfile, hrows, hrec']
      · rw [run_append_of_running _ _ hout]
        simp only [run, hfile, append_to_excel, ha]
        simp [rowCount, hrows, hrec']

/-- C2, witness for the amended theorem at the one-sample run. -/
theorem C2_rows_match_witness :
    ([(r22, 1)] : List (Row × Nat)) ≠ [] ∧
    (rowCount ((run initState (sampleEvents [(r22, 1)])).2.file) = 1 ∧
     rowCount ((run initState
         (sampleEvents [(r22, 1)] ++ [Event.interrupt 2])).2.file) = 2 ∧
     rowCount ((run initState [Event.interrupt 2]).2.file) = 0) :=
  ⟨by decide, C2_rows_match_amended [(r22, 1)] 2 (by decide)⟩

/-- C3: each of the three charts carries a least-squares trend line
exactly when the record set has at least two points and the plotted
metric series has no missing value; otherwise only scatter and mean
line are present. -/
theorem C3_trend_guard (df : List Row) :
    ((create_scatter_plots df).temperature.trend.isSome = true ↔
       2 ≤ df.length ∧ ∀ r ∈ df, r.temperature ≠ none) ∧
    ((create_scatter_plots df).humidity.trend.isSome = true ↔
       2 ≤ df.length ∧ ∀ r ∈ df, r.humidity ≠ none) ∧
    ((create_scatter_plots df).pressure.trend.isSome = true ↔
       2 ≤ df.length ∧ ∀ r ∈ df, r.pressure ≠ none) := by
  refine ⟨?_, ?_, ?_⟩ <;>
  · simp only [create_scatter_plots, mkPanel_trend_isSome,
      trendCondition_eq_true_iff, List.length_map]
    constructor
    · rintro ⟨h1, h2⟩
      exact ⟨h1, fun r hr => h2 _ (List.mem_map_of_mem _ hr)⟩
    · rintro ⟨h1, h2⟩
      refine ⟨h1, fun y hy => ?_⟩
      obtain ⟨r, hr, rfl⟩ := List.mem_map.mp hy
      exact h2 r hr

/-- C4: when the file already exists, one writer call appends exactly
the four field values of the most recent reading at the next free row
index computed from the current row count, and every previously written
row is unchanged. -/
theorem C4_append_one_row (sheet : Sheet) (df : List Row) (lastRow : Row)
    (iId : Nat) (h : df.getLast? = some lastRow) :
    append_to_excel (some sheet) df iId =
      Except.ok { rows := sheet.rows ++ [lastRow]
                  images := removeAlternating sheet.images ++ [iId] } ∧
    nextFreeRow sheet = sheetRowOfDataIndex sheet.rows.length ∧
    (sheet.rows ++ [lastRow]).take sheet.rows.length = sheet.rows ∧
    (sheet.rows ++ [lastRow]).length = sheet.rows.length + 1 := by
  refine ⟨?_, ?_, ?_, by simp⟩
  · simp [append_to_excel, h]
  · simp only [nextFreeRow, maxRow, sheetRowOfDataIndex]
    omega
  · exact List.take_left sheet.rows [lastRow]

/-- C4, witness at a one-row sheet and a two-reading frame. -/
theorem C4_append_one_row_witness :
    ([r22, r23].getLast? = some r23) ∧
    (append_to_excel (some { rows := [r22], images := [5, 6, 7] }) [r22, r23] 9 =
       Except.ok { rows := [r22, r23], images := [6, 9] } ∧
     nextFreeRow { rows := [r22], images := [5, 6, 7] } = sheetRowOfDataIndex 1 ∧
     ([r22, r23]).take 1 = [r22] ∧
     ([r22, r23]).length = 1 + 1) :=
  ⟨rfl, C4_append_one_row { rows := [r22], images := [5, 6, 7] } [r22, r23] r23 9 rfl⟩

/-- C5: along any run whose starting file holds at most one embedded
image (in particular any run of this program, whose create branch embeds
none), every rest point keeps at most one embedded image — and the
removal loop does clear all existing images whenever at most one is
present. -/
theorem C5_at_most_one_image (s : ProgState) (es : List Event)
    (imgs : List Nat) (h1 : imageCount s.file ≤ 1) (h2 : imgs.length ≤ 1) :
    imageCount (run s es).2.file ≤ 1 ∧ removeAlternating imgs = [] :=
  ⟨run_imageCount es s h1, (removeAlternating_eq_nil_iff imgs).mpr h2⟩

/-- C5, witness: a fresh run of one sample followed by the shutdown
write, and a one-image list. -/
theorem C5_at_most_one_image_witness :
    (imageCount initState.file ≤ 1 ∧ ([7] : List Nat).length ≤ 1) ∧
    (imageCount (run initState [Event.sample r22 1, Event.interrupt 2]).2.file ≤ 1 ∧
     removeAlternating ([7] : List Nat) = []) :=
  ⟨⟨by decide, by decide⟩,
   C5_at_most_one_image initState [Event.sample r22 1, Event.interrupt 2] [7]
     (by decide) (by decide)⟩

/-- C6, counterexample: an interrupt arriving with an existing file and
an empty record dictionary does not produce a clean exit — the final
save raises inside the handler and the error escapes uncaught. -/
theorem C6_interrupt_counterexample :
    (run { records := [], file := some { rows := [], images := [] } }
        [Event.interrupt 1]).1 = Outcome.uncaughtError iloc_err ∧
    (run { records := [], file := some { rows := [], images := [] } }
        [Event.interrupt 1]).1 ≠ Outcome.cleanExit :=
  ⟨rfl, by decide⟩

/-- C6, amended: errors fall into exactly two classes — an exception in
the loop body (a writer exception included, since the writer catches
nothing) is caught once at the outermost scope, its message printed, and
the program ends with no retry (subsequent events never run); an
interrupt triggers exactly one final save and then a clean exit when
that save succeeds, while a failure inside the final save escapes
uncaught. -/
theorem C6_error_classes (s : ProgState) (es : List Event) (msg : String)
    (r : Row) (iId : Nat) :
    run s (Event.bodyError msg :: es) = (Outcome.printedError msg, s) ∧
    run s (Event.interrupt iId :: es) =
      (match append_to_excel s.file s.records iId with
       | Except.ok f => (Outcome.cleanExit, { s with file := some f })
       | Except.error m => (Outcome.uncaughtError m, s)) ∧
    run s (Event.sample r iId :: es) =
      (match append_to_excel s.file (s.records ++ [r]) iId with
       | Except.ok f => run { records := s.records ++ [r], file := some f } es
       | Except.error m =>
           (Outcome.printedError m, { records := s.records ++ [r], file := s.file })) := by
  refine ⟨rfl, ?_, ?_⟩
  · cases hap : append_to_excel s.file s.records iId <;> simp [run, hap]
  · cases hap : append_to_excel s.file (s.records ++ [r]) iId <;> simp [run, hap]

/-- C7: the trend line is an ordinary least-squares fit against the
sample index, not the timestamp: on the index-linear temperatures
[10, 12, 14, 16] (with non-uniform timestamps) the fitted slope is
exactly 2 and the intercept exactly 10. -/
theorem C7_trend_ols_by_index :
    polyfit1 (indexXs 4) [10, 12, 14, 16] = (2, 10) ∧
    (create_scatter_plots dfTrend).temperature.trend = some (2, 10) := by
  have h1 : polyfit1 (indexXs 4) [10, 12, 14, 16] = (2, 10) := by
    simp [polyfit1, indexXs, List.range_succ, Prod.ext_iff]
    norm_num
  refine ⟨h1, ?_⟩
  show some (polyfit1 (indexXs 4) [10, 12, 14, 16]) = some (2, 10)
  rw [h1]

/-- C8: the horizontal line of each chart is the arithmetic mean of the
metric over the whole record set: for temperatures [20, 22, 24] the
mean line is exactly 22. -/
theorem C8_mean_line :
    seriesMean [some 20, some 22, some 24] = 22 ∧
    (create_scatter_plots dfMean).temperature.meanLine = 22 := by
  have h1 : seriesMean [some 20, some 22, some 24] = 22 := by
    simp [seriesMean, List.filterMap_cons]
    norm_num
  exact ⟨h1, h1⟩

/-- C9: the remove-while-iterating image loop removes only every other
image: of n embedded images it removes the ceiling of n/2 and leaves
the floor of n/2 in place before the new chart is added; all existing
images are removed exactly when n is at most 1. -/
theorem C9_every_other_image (sheet : Sheet) (df : List Row) (iId : Nat)
    (h : df ≠ []) :
    ∃ sh', append_to_excel (some sheet) df iId = Except.ok sh' ∧
      sh'.images = removeAlternating sheet.images ++ [iId] ∧
      (removeAlternating sheet.images).length = sheet.images.length / 2 ∧
      sheet.images.length - (removeAlternating sheet.images).length =
        (sheet.images.length + 1) / 2 ∧
      (removeAlternating sheet.images = [] ↔ sheet.images.length ≤ 1) := by
  obtain ⟨a, ha⟩ := getLast?_some_of_ne_nil df h
  refine ⟨{ rows := sheet.rows ++ [a]
            images := removeAlternating sheet.images ++ [iId] },
    ?_, rfl, removeAlternating_length _, ?_, removeAlternating_eq_nil_iff _⟩
  · simp [append_to_excel, ha]
  · have := removeAlternating_length sheet.images
    omega

/-- C9, witness at a four-image sheet: two images survive the loop. -/
theorem C9_every_other_image_witness :
    ([r22] : List Row) ≠ [] ∧
    (∃ sh', append_to_excel (some { rows := [], images := [3, 4, 5, 6] }) [r22] 9 =
        Except.ok sh' ∧
      sh'.images = removeAlternating [3, 4, 5, 6] ++ [9] ∧
      (removeAlternating ([3, 4, 5, 6] : List Nat)).length = 2 ∧
      (4 : Nat) - (removeAlternating ([3, 4, 5, 6] : List Nat)).length = 2 ∧
      (removeAlternating ([3, 4, 5, 6] : List Nat) = [] ↔ (4 : Nat) ≤ 1)) :=
  ⟨by decide,
   C9_every_other_image { rows := [], images := [3, 4, 5, 6] } [r22] 9 (by decide)⟩

/-- C10: an interrupt before any reading, with the report file already
present, makes the final shutdown save index the last row of an empty
frame: the writer raises the out-of-bounds error and the interrupt
handler does not catch it; the final write succeeds whenever the record
set is non-empty or the file is absent. -/
theorem C10_shutdown_empty_records (sheet : Sheet) (df : List Row)
    (f : Option Sheet) (iId : Nat) (h : df ≠ [] ∨ f = none) :
    append_to_excel (some sheet) [] iId = Except.error iloc_err ∧
    (run { records := [], file := some sheet } [Event.interrupt iId]).1 =
      Outcome.uncaughtError iloc_err ∧
    ∃ sh', append_to_excel f df iId = Except.ok sh' := by
  refine ⟨rfl, by simp [run, append_to_excel], ?_⟩
  cases f with
  | none => exact ⟨_, rfl⟩
  | some sh =>
      have hdf : df ≠ [] := by
        rcases h with h | h
        · exact h
        · simp at h
      obtain ⟨a, ha⟩ := getLast?_some_of_ne_nil df hdf
      exact ⟨{ rows := sh.rows ++ [a]
               images := removeAlternating sh.images ++ [iId] },
        by simp [append_to_excel, ha]⟩

/-- C10, witness: empty sheet, one-reading frame, absent file. -/
theorem C10_shutdown_empty_records_witness :
    (([r22] : List Row) ≠ [] ∨ (none : Option Sheet) = none) ∧
    (append_to_excel (some { rows := [], images := [] }) [] 1 =
       Except.error iloc_err ∧
     (run { records := [], file := some { rows := [], images := [] } }
         [Event.interrupt 1]).1 = Outcome.uncaughtError iloc_err ∧
     ∃ sh', append_to_excel none [r22] 1 = Except.ok sh') :=
  ⟨Or.inr rfl,
   C10_shutdown_empty_records { rows := [], images := [] } [r22] none 1 (Or.inr rfl)⟩
